import Mathlib

/-!
Shallow embedding of the transcription service
(`src/transcription_service`): the request pipeline in
`routers.py` (`transcribe_audio` worker and the `transcribe`
endpoint), the stage capability wrappers in
`transcription_service.py`, the schemas in `schemas.py`, and the
validators in `service_utils.py`.  External capabilities (demucs
separation, whisper transcription, pydub decoding) and clock
readings are supplied by an `Env` oracle; the filesystem is a list
of paths; Python exceptions are an explicit `PyExn` type.
-/

namespace TranscriptionSvc

/-- A JSON value, restricted to the shapes the config fields use. -/
inductive Json where
  | str (s : String)
  | bool (b : Bool)
  | int (n : Int)
  | null
deriving DecidableEq, Repr

/-- Association-list lookup for a JSON object (first binding wins,
mirroring unique-key Python dicts). -/
def jlookup (o : List (String × Json)) (k : String) : Option Json :=
  (o.find? (fun kv => kv.1 = k)).map (fun kv => kv.2)

/-- `schemas.TranscriptionConfig`: five fields with the documented
defaults.  `language_hint` is `Optional[str]` in the source, hence
`Option String` here. -/
structure TranscriptionConfig where
  language_hint : Option String
  enable_separation : Bool
  diarize : Bool
  model_size : String
  target_sr : Int
deriving DecidableEq, Repr

/-- The five field names `TranscriptionConfig` reads from the input
object; every other key is ignored (pydantic default `extra`
behaviour). -/
def configFieldNames : List String :=
  ["language_hint", "enable_separation", "diarize", "model_size", "target_sr"]

/-- Field extraction for `language_hint` (default `"en"`, `null`
accepted because the annotation is `Optional[str]`). -/
def readLangHint (v : Option Json) : Except String (Option String) :=
  match v with
  | none => .ok (some "en")
  | some (.str s) => .ok (some s)
  | some .null => .ok none
  | some _ => .error "language_hint"

/-- Field extraction for a `bool` field with a default. -/
def readBool (d : Bool) (v : Option Json) : Except String Bool :=
  match v with
  | none => .ok d
  | some (.bool b) => .ok b
  | some _ => .error "bool field"

/-- Field extraction for a `str` field with a default. -/
def readStr (d : String) (v : Option Json) : Except String String :=
  match v with
  | none => .ok d
  | some (.str s) => .ok s
  | some _ => .error "str field"

/-- Field extraction for an `int` field with a default. -/
def readInt (d : Int) (v : Option Json) : Except String Int :=
  match v with
  | none => .ok d
  | some (.int n) => .ok n
  | some _ => .error "int field"

/-- Construct a config from the five looked-up values (the body of
pydantic validation for `cls(**json_dict)`). -/
def mkConfig (lh es dz ms sr : Option Json) : Except String TranscriptionConfig := do
  let lhv ← readLangHint lh
  let esv ← readBool true es
  let dzv ← readBool false dz
  let msv ← readStr "small" ms
  let srv ← readInt 16000 sr
  .ok ⟨lhv, esv, dzv, msv, srv⟩

/-- `TranscriptionConfig.from_dict`: build the model from a JSON
object; unknown keys are ignored, missing keys take defaults,
ill-typed values are a construction-time failure. -/
def TranscriptionConfig.from_dict (o : List (String × Json)) :
    Except String TranscriptionConfig :=
  mkConfig (jlookup o "language_hint") (jlookup o "enable_separation")
    (jlookup o "diarize") (jlookup o "model_size") (jlookup o "target_sr")

/-- Serialization of a config back to a JSON object (pydantic
`model_dump`): all five fields, in declaration order. -/
def TranscriptionConfig.model_dump (c : TranscriptionConfig) : List (String × Json) :=
  [("language_hint", match c.language_hint with | some s => .str s | none => .null),
   ("enable_separation", .bool c.enable_separation),
   ("diarize", .bool c.diarize),
   ("model_size", .str c.model_size),
   ("target_sr", .int c.target_sr)]

/-- The config every field of which is its documented default. -/
def defaultConfig : TranscriptionConfig :=
  ⟨some "en", true, false, "small", 16000⟩

/-! ## Filesystem and Python exceptions -/

/-- Filesystem paths are strings. -/
abbrev Path := String

/-- The filesystem is the list of paths that currently exist. -/
abbrev FS := List Path

/-- Creating (or overwriting) a file at a path. -/
def FS.write (fs : FS) (p : Path) : FS :=
  if p ∈ fs then fs else p :: fs

/-- Removing a path from the filesystem. -/
def FS.removePath (fs : FS) (p : Path) : FS :=
  fs.filter (fun q => q ≠ p)

/-- A Python exception as the pipeline distinguishes them: FastAPI
`HTTPException` (status plus detail dict), `FileNotFoundError` from
`Path.unlink`, and any other exception carrying its message. -/
inductive PyExn where
  | httpException (status : Nat) (detail : List (String × String))
  | fileNotFound (path : Path)
  | err (msg : String)
deriving DecidableEq, Repr

/-- `str(e)` for an exception, as used when embedding it in a
response detail. -/
def PyExn.pyStr : PyExn → String
  | .httpException _ _ => "http exception"
  | .fileNotFound p => "No such file or directory: " ++ p
  | .err m => m

/-- `pathlib.Path.unlink()` with the default `missing_ok=False`:
delete the file if present, raise `FileNotFoundError` otherwise. -/
def unlink (fs : FS) (p : Path) : Except PyExn FS :=
  if p ∈ fs then .ok (fs.removePath p) else .error (.fileNotFound p)

/-! ## Timing (`int()` truncation) -/

/-- Python `int()` on a real measurement: truncation toward zero. -/
def pyInt (q : ℚ) : ℤ :=
  if 0 ≤ q then ⌊q⌋ else -⌊-q⌋

/-- `schemas.TimingInfo`. -/
structure TimingInfo where
  load : Int
  separation : Int
  transcription : Int
  total : Int
deriving DecidableEq, Repr

/-- The timing record exactly as `transcribe_audio` builds it: the
three sub-timings are `int(t * 1000)`, while the total is first
truncated to whole seconds (`total_time = int(elapsed)`) and only
then scaled (`int(total_time * 1000)`). -/
def workerTiming (load_time sep_time transcription_time total_elapsed : ℚ) : TimingInfo :=
  { load := pyInt (load_time * 1000)
    separation := pyInt (sep_time * 1000)
    transcription := pyInt (transcription_time * 1000)
    total := pyInt ((pyInt total_elapsed : ℚ) * 1000) }

/-! ## Schemas (`schemas.py`) -/

/-- `schemas.TranscriptionSegment` (`end` is a Python field name;
spelled `end_` here). -/
structure TranscriptionSegment where
  start : ℚ
  end_ : ℚ
  text : String
deriving DecidableEq, Repr

/-- `schemas.PipelineInfo`: two free-form dicts. -/
structure PipelineInfo where
  separation : List (String × Json)
  transcription : List (String × Json)
deriving DecidableEq, Repr

/-- `schemas.TranscriptionResponse`.  `language` is set from
`language_hint`, hence `Option String` here. -/
structure TranscriptionResponse where
  request_id : String
  duration_sec : ℚ
  sample_rate : Int
  pipeline : PipelineInfo
  segments : List TranscriptionSegment
  text : String
  language : Option String
  timings_ms : TimingInfo
deriving DecidableEq, Repr

/-- Log levels used by the service. -/
inductive LogLevel where
  | info
  | warning
  | error
deriving DecidableEq, Repr

/-- One structured log record. -/
structure LogRecord where
  level : LogLevel
  msg : String
  request_id : String
deriving DecidableEq, Repr

/-! ## Settings (`settings.py` defaults) -/

namespace settings

/-- `Settings.max_file_size_mb` default. -/
def max_file_size_mb : Nat := 100

/-- `Settings.supported_formats` default. -/
def supported_formats : List String := ["wav", "mp3", "m4a", "flac", "ogg"]

/-- `Settings.separator_model` default. -/
def separator_model : String := "htdemucs_ft"

/-- `Settings.temp_dir`, as an abstract base path. -/
def temp_dir : Path := "TMP"

/-- `Settings.debug` default. -/
def debug : Bool := false

end settings

/-! ## Environment oracle

External capabilities and clock readings, fixed per request:
the demucs separation outcome, the whisper transcription outcome as
a function of the audio path it is given, the pydub decode outcome,
the per-request `uuid4`, CUDA availability, and the elapsed-time
measurements the wall clock yields around each stage. -/

structure Env where
  cuda : Bool
  uuid : String
  sepResult : Except String Unit
  transResult : Path → Except String (String × List TranscriptionSegment)
  decodeResult : Except String (ℚ × Int)
  load_time : ℚ
  sep_time : ℚ
  transcription_time : ℚ
  total_elapsed : ℚ

/-! ## Stage capability wrappers (`transcription_service.py`) -/

/-- The fixed path `settings.temp_dir / "vocals.wav"` that
`separate_vocals` writes the separated vocals to — the same path
for every request. -/
def vocalsPath : Path := settings.temp_dir ++ "/vocals.wav"

/-- `TranscriptionService.separate_vocals`: run the demucs
separator; on success save the vocals to
`settings.temp_dir / "vocals.wav"` and return that path. -/
def TranscriptionService.separate_vocals (env : Env) (audio_fp : Path)
    (model : String) (device : String) (fs : FS) : Except String (Path × FS) :=
  match env.sepResult with
  | .error e => .error e
  | .ok _ =>
      let vocals_fp := vocalsPath
      .ok (vocals_fp, fs.write vocals_fp)

/-- Python `f"{x}"` on an `Optional[str]`. -/
def pyStrOpt : Option String → String
  | some s => s
  | none => "None"

/-- `TranscriptionService.transcribe_audio`: load the whisper model
(measured as `load_time`) and transcribe the given audio path. -/
def TranscriptionService.transcribe_audio (env : Env) (vocals_fp : Path)
    (transcription_model : String) :
    Except String (String × List TranscriptionSegment × ℚ) :=
  match env.transResult vocals_fp with
  | .error e => .error e
  | .ok (text, segments) => .ok (text, segments, env.load_time)

/-! ## Worker function (`routers.transcribe_audio`) -/

/-- Observable outcome of one worker run: the returned response or
raised exception, the filesystem afterwards, the emitted log
records, whether the Separator capability was invoked, and which
path was handed to the transcription stage. -/
structure WorkerOut where
  result : Except PyExn TranscriptionResponse
  fs : FS
  logs : List LogRecord
  sepInvoked : Bool
  transInput : Option Path

/-- `routers.transcribe_audio`, the function submitted to the
worker pool: try separation (swallowing any failure with a warning
and falling back to the original path), then transcribe (failures
propagate), build the response, and `vocals_fp.unlink()`. -/
def routers.transcribe_audio (env : Env) (audio_fp : Path)
    (transcription_config : TranscriptionConfig) (request_id : String)
    (duration : ℚ) (sample_rate : Int) (fs : FS) : WorkerOut :=
  let device := if env.cuda then "cuda" else "cpu"
  let logs0 := [LogRecord.mk .info (device ++ " will be used.") request_id]
  -- try: separate_vocals(...) except Exception: warn, vocals_fp = audio_fp
  let sep := TranscriptionService.separate_vocals env audio_fp
    settings.separator_model device fs
  let step1 : Path × FS × List LogRecord :=
    match sep with
    | .ok (p, fs1) => (p, fs1, logs0)
    | .error e =>
        (audio_fp, fs,
         logs0 ++ [LogRecord.mk .warning
           "Vocal separation failed, skipping vocal separation step." request_id])
  let vocals_fp := step1.1
  let fs1 := step1.2.1
  let logs1 := step1.2.2
  match TranscriptionService.transcribe_audio env vocals_fp
      (transcription_config.model_size ++ "." ++ pyStrOpt transcription_config.language_hint) with
  | .error e =>
      { result := .error (.err e), fs := fs1, logs := logs1,
        sepInvoked := true, transInput := some vocals_fp }
  | .ok (text, segments, load_time) =>
      let timing_info := workerTiming load_time env.sep_time
        env.transcription_time env.total_elapsed
      let pipeline_info : PipelineInfo :=
        { separation := [("enables", Json.bool transcription_config.enable_separation),
                         ("method", Json.str "demucs")]
          transcription := [("model", Json.str transcription_config.model_size)] }
      let response : TranscriptionResponse :=
        { request_id := request_id, duration_sec := duration,
          sample_rate := sample_rate, pipeline := pipeline_info,
          segments := segments, text := text,
          language := transcription_config.language_hint,
          timings_ms := timing_info }
      -- vocals_fp.unlink()
      match unlink fs1 vocals_fp with
      | .error ex =>
          { result := .error ex, fs := fs1, logs := logs1,
            sepInvoked := true, transInput := some vocals_fp }
      | .ok fs2 =>
          { result := .ok response, fs := fs2,
            logs := logs1 ++ [LogRecord.mk .info "Transcription completed successfully" request_id],
            sepInvoked := true, transInput := some vocals_fp }

/-! ## Validators (`service_utils.py`) and config parsing entry -/

/-- The uploaded file as the endpoint sees it: its (optional)
filename and the byte length of its content. -/
structure UploadFile where
  filename : Option String
  content_size : Nat

/-- Split a character list on `'.'` (the groups between dots). -/
def splitDots (cs : List Char) : List (List Char) :=
  match cs with
  | [] => [[]]
  | c :: rest =>
      let r := splitDots rest
      if c = '.' then [] :: r
      else
        match r with
        | [] => [[c]]
        | g :: gs => (c :: g) :: gs

/-- `pathlib.Path(name).suffix`: the final `"."`-extension, empty
when there is none or the name is a bare dotfile. -/
def pathSuffix (s : String) : String :=
  match splitDots s.toList with
  | [] => ""
  | [_] => ""
  | p :: rest =>
      if p = [] ∧ rest.length = 1 then ""
      else "." ++ String.mk (rest.getLastD [])

/-- `str.lower()` character by character. -/
def lowerAscii (s : String) : String :=
  String.mk (s.toList.map Char.toLower)

/-- Python `str.lstrip(".")`. -/
def lstripDots (s : String) : String :=
  String.mk (s.toList.dropWhile (fun c => c = '.'))

/-- `service_utils.validate_file_name_and_ext`: 400 when the
filename is missing/empty or its lower-cased extension is not a
supported format; otherwise return the extension. -/
def validate_file_name_and_ext (file : UploadFile) : Except PyExn String :=
  match file.filename with
  | none =>
      .error (.httpException 400
        [("error", "invalid_file"), ("detail", "No filename provided")])
  | some name =>
      if name = "" then
        .error (.httpException 400
          [("error", "invalid_file"), ("detail", "No filename provided")])
      else
        let file_extension := lstripDots (lowerAscii (pathSuffix name))
        if file_extension ∈ settings.supported_formats then .ok file_extension
        else
          .error (.httpException 400
            [("error", "invalid_format"),
             ("detail", "Unsupported format: " ++ file_extension)])

/-- `service_utils.validate_file_size`: 413 when the content
exceeds `max_file_size_mb`. -/
def validate_file_size (content_size : Nat) : Except PyExn Nat :=
  if content_size > settings.max_file_size_mb * 1024 * 1024 then
    .error (.httpException 413
      [("error", "file_too_large"), ("detail", "File size exceeds limit")])
  else .ok content_size

/-- `service_utils.get_audio_duration_and_sample_rate`: probe via
pydub; a decode failure is a 422. -/
def get_audio_duration_and_sample_rate (env : Env) : Except PyExn (ℚ × Int) :=
  match env.decodeResult with
  | .ok r => .ok r
  | .error e =>
      .error (.httpException 422 [("error", "Unable to decode"), ("detail", e)])

/-- `TranscriptionConfig.from_json_string`: the config form field
after `json.loads` (`.error` when the JSON itself is malformed);
decode or validation failures become a 400 `invalid_config`. -/
def TranscriptionConfig.from_json_string
    (json_string : Except String (List (String × Json))) :
    Except PyExn TranscriptionConfig :=
  match json_string with
  | .error e =>
      .error (.httpException 400
        [("error", "invalid_config"),
         ("detail", "Invalid JSON configuration: " ++ e)])
  | .ok o =>
      match TranscriptionConfig.from_dict o with
      | .error e =>
          .error (.httpException 400
            [("error", "invalid_config"),
             ("detail", "Invalid JSON configuration: " ++ e)])
      | .ok c => .ok c

/-! ## Endpoint (`routers.transcribe`) -/

/-- Observable outcome of one endpoint run. -/
structure RequestOut where
  result : Except PyExn TranscriptionResponse
  fs : FS
  logs : List LogRecord
  sepInvoked : Bool
  transInput : Option Path

/-- The `try/except/finally` around the pool submission: worker
`HTTPException`s re-raise unchanged, any other worker exception
becomes a 500 `processing_failed` carrying the correlation id and
`str(e)`, and the `finally` unlinks the saved upload — an exception
raised there replaces whatever outcome was pending. -/
def routers.runPool (env : Env) (audio_fp : Path)
    (transcription_config : TranscriptionConfig) (request_id : String)
    (duration : ℚ) (sample_rate : Int) (fs : FS) : RequestOut :=
  let w := routers.transcribe_audio env audio_fp transcription_config
    request_id duration sample_rate fs
  let handled : Except PyExn TranscriptionResponse :=
    match w.result with
    | .ok r => .ok r
    | .error (.httpException s d) => .error (.httpException s d)
    | .error e =>
        .error (.httpException 500
          [("request_id", request_id), ("error", "processing_failed"),
           ("detail", e.pyStr)])
  let logs1 :=
    match w.result with
    | .ok _ => w.logs
    | .error (.httpException _ _) => w.logs
    | .error _ => w.logs ++ [LogRecord.mk .error "Transcription failed" request_id]
  -- finally: audio_fp.unlink()
  match unlink w.fs audio_fp with
  | .ok fs2 => ⟨handled, fs2, logs1, w.sepInvoked, w.transInput⟩
  | .error ex => ⟨.error ex, w.fs, logs1, w.sepInvoked, w.transInput⟩

/-- `routers.transcribe`, the `POST /transcribe/` endpoint body:
parse the config, validate filename/extension and size, save the
upload to `temp_dir / f"{request_id}_{uuid4()}.{ext}"`, probe
duration and sample rate, then run the worker under
`try/except/finally`. -/
def routers.transcribe (env : Env) (file : UploadFile)
    (config : Except String (List (String × Json))) (request_id : String)
    (fs : FS) : RequestOut :=
  match TranscriptionConfig.from_json_string config with
  | .error ex => ⟨.error ex, fs, [], false, none⟩
  | .ok transcription_config =>
    match validate_file_name_and_ext file with
    | .error ex => ⟨.error ex, fs, [], false, none⟩
    | .ok file_extension =>
      match validate_file_size file.content_size with
      | .error ex => ⟨.error ex, fs, [], false, none⟩
      | .ok _ =>
        let audio_fp := settings.temp_dir ++ "/" ++ request_id ++ "_"
          ++ env.uuid ++ "." ++ file_extension
        let fs1 := fs.write audio_fp
        match get_audio_duration_and_sample_rate env with
        | .error ex =>
            ⟨.error ex, fs1,
             [LogRecord.mk .info "File validation passed" request_id], false, none⟩
        | .ok (audio_duration, sample_rate) =>
            let out := routers.runPool env audio_fp transcription_config
              request_id audio_duration sample_rate fs1
            { out with logs :=
                LogRecord.mk .info "File validation passed" request_id :: out.logs }

/-! ## HTTP layer (`app.py` handlers) -/

/-- The status and error body the caller observes.  For a success
the body is the response JSON itself (tracked separately), so
`errorBody` is empty there. -/
structure HttpResponse where
  status : Nat
  errorBody : List (String × String)
deriving DecidableEq, Repr

/-- FastAPI semantics over the endpoint outcome: an `HTTPException`
becomes its status and detail; any other escaped exception hits the
`global_exception_handler` in `app.py` (500, correlation id,
`"Internal server error"`, detail masked unless `debug`). -/
def toHttp (request_id : String) (r : Except PyExn TranscriptionResponse) :
    HttpResponse :=
  match r with
  | .ok _ => ⟨200, []⟩
  | .error (.httpException s d) => ⟨s, d⟩
  | .error e =>
      ⟨500, [("request_id", request_id), ("error", "Internal server error"),
             ("detail", if settings.debug then e.pyStr else "An unexpected error occurred")]⟩

/-- Full request handling: endpoint body plus HTTP error mapping. -/
def handleRequest (env : Env) (file : UploadFile)
    (config : Except String (List (String × Json))) (request_id : String)
    (fs : FS) : RequestOut × HttpResponse :=
  let out := routers.transcribe env file config request_id fs
  (out, toHttp request_id out.result)

/-- Lookup in a string-valued error body. -/
def blookup (l : List (String × String)) (k : String) : Option String :=
  (l.find? (fun kv => kv.1 = k)).map (fun kv => kv.2)

/-! ## Concrete request fixtures -/

/-- A small valid upload named `test.wav`. -/
def fileWav : UploadFile := ⟨some "test.wav", 1000⟩

/-- Oracle for a request on which every external capability
succeeds: a 5-second 16 kHz file, transcribed to `"hello world"`
with one segment. -/
def envSepOk : Env :=
  { cuda := false, uuid := "u0", sepResult := .ok (),
    transResult := fun _ => .ok ("hello world", [⟨0, 5, "hello world"⟩]),
    decodeResult := .ok (5, 16000),
    load_time := 1, sep_time := 0, transcription_time := 1, total_elapsed := 2 }

/-- Same request, but the separation stage raises. -/
def envSepFail : Env := { envSepOk with sepResult := .error "demucs failed" }

/-- Same request, but the transcription stage raises. -/
def envTransFail : Env := { envSepOk with transResult := fun _ => .error "whisper failed" }

/-! ## Basic filesystem lemmas -/

theorem FS.mem_write_self (fs : FS) (p : Path) : p ∈ fs.write p := by
  unfold FS.write
  split
  · assumption
  · exact List.mem_cons_self _ _

theorem FS.mem_write (fs : FS) (p q : Path) (h : q ∈ fs) : q ∈ fs.write p := by
  unfold FS.write
  split
  · exact h
  · exact List.mem_cons_of_mem _ h

theorem unlink_of_mem (fs : FS) (p : Path) (h : p ∈ fs) :
    unlink fs p = .ok (fs.removePath p) := by
  unfold unlink
  exact if_pos h

theorem unlink_of_not_mem (fs : FS) (p : Path) (h : p ∉ fs) :
    unlink fs p = .error (.fileNotFound p) := by
  unfold unlink
  exact if_neg h

theorem not_mem_removePath (fs : FS) (p : Path) : p ∉ fs.removePath p := by
  intro h
  simp [FS.removePath, List.mem_filter] at h

/-! ## Lookup lemmas for JSON objects -/

theorem find?_skip (pre post : List (String × Json)) (k k' : String) (v : Json)
    (h : k ≠ k') :
    ((pre ++ (k, v) :: post).find? (fun kv => kv.1 = k')) =
      ((pre ++ post).find? (fun kv => kv.1 = k')) := by
  induction pre with
  | nil =>
      simp only [List.nil_append]
      rw [List.find?_cons_of_neg]
      simp [h]
  | cons a pre ih =>
      simp only [List.cons_append, List.find?_cons]
      cases hpa : (fun kv : String × Json => decide (kv.1 = k')) a <;> simp [hpa, ih]

theorem jlookup_skip (pre post : List (String × Json)) (k k' : String) (v : Json)
    (h : k ≠ k') :
    jlookup (pre ++ (k, v) :: post) k' = jlookup (pre ++ post) k' := by
  unfold jlookup
  rw [find?_skip _ _ _ _ _ h]

/-! ## Pipeline lemmas -/

/-- When the transcription capability fails on every path, the
worker returns that error and never removes the saved upload. -/
theorem worker_trans_failure (env : Env) (audio_fp : Path)
    (cfg : TranscriptionConfig) (rid : String) (dur : ℚ) (sr : Int) (fs : FS)
    (m : String) (htr : ∀ p, env.transResult p = .error m) :
    (routers.transcribe_audio env audio_fp cfg rid dur sr fs).result = .error (.err m) ∧
    (audio_fp ∈ fs →
      audio_fp ∈ (routers.transcribe_audio env audio_fp cfg rid dur sr fs).fs) := by
  unfold routers.transcribe_audio TranscriptionService.separate_vocals
    TranscriptionService.transcribe_audio
  cases hsep : env.sepResult <;> simp [htr]
  exact fun h => FS.mem_write _ _ _ h

/-- The pool wrapper turns a worker transcription failure into the
500 `processing_failed` HTTP exception, and the `finally` unlink of
the still-present upload succeeds, so that exception survives. -/
theorem runPool_trans_failure (env : Env) (audio_fp : Path)
    (cfg : TranscriptionConfig) (rid : String) (dur : ℚ) (sr : Int) (fs : FS)
    (m : String) (ha : audio_fp ∈ fs) (htr : ∀ p, env.transResult p = .error m) :
    (routers.runPool env audio_fp cfg rid dur sr fs).result =
      .error (.httpException 500
        [("request_id", rid), ("error", "processing_failed"), ("detail", m)]) := by
  have h := worker_trans_failure env audio_fp cfg rid dur sr fs m htr
  simp only [routers.runPool, h.1, unlink_of_mem _ _ (h.2 ha), PyExn.pyStr]

/-- Endpoint-level version of the previous lemma, for any request
that passes validation and decoding. -/
theorem transcribe_trans_failure (env : Env) (file : UploadFile)
    (o : List (String × Json)) (c : TranscriptionConfig) (rid : String) (fs : FS)
    (m ext : String) (dur : ℚ) (sr : Int)
    (hc : TranscriptionConfig.from_dict o = .ok c)
    (hf : validate_file_name_and_ext file = .ok ext)
    (hs : file.content_size ≤ settings.max_file_size_mb * 1024 * 1024)
    (hd : env.decodeResult = .ok (dur, sr))
    (htr : ∀ p, env.transResult p = .error m) :
    (routers.transcribe env file (.ok o) rid fs).result =
      .error (.httpException 500
        [("request_id", rid), ("error", "processing_failed"), ("detail", m)]) := by
  have hvs : validate_file_size file.content_size = .ok file.content_size := by
    unfold validate_file_size
    rw [if_neg (by omega)]
  simp only [routers.transcribe, TranscriptionConfig.from_json_string, hc, hf, hvs,
    get_audio_duration_and_sample_rate, hd]
  exact runPool_trans_failure env _ c rid dur sr _ m (FS.mem_write_self fs _) htr

/-- The worker invokes the Separator capability on every run,
whatever the config says. -/
theorem sepInvoked_always (env : Env) (audio_fp : Path) (cfg : TranscriptionConfig)
    (rid : String) (dur : ℚ) (sr : Int) (fs : FS) :
    (routers.transcribe_audio env audio_fp cfg rid dur sr fs).sepInvoked = true := by
  unfold routers.transcribe_audio
  dsimp only
  split
  · rfl
  · split <;> rfl

/-- `int()` truncation acts as the identity on an integer number of
milliseconds. -/
theorem pyInt_int_mul (n : ℤ) : pyInt ((n : ℚ) * 1000) = n * 1000 := by
  unfold pyInt
  have h : ((n : ℚ) * 1000) = ((n * 1000 : ℤ) : ℚ) := by push_cast; ring
  rw [h]
  split
  · exact Int.floor_intCast _
  · rw [← Int.cast_neg, Int.floor_intCast]; ring

/-! ## Claim theorems -/

/-- C1: the claim states that when separation raises, the run still
completes with HTTP 200.  On the code the run does degrade
(transcription receives the original upload path and a warning is
logged), but in that path the worker's `vocals_fp` aliases the
upload and `vocals_fp.unlink()` deletes it, so the endpoint's
`finally` unlink raises `FileNotFoundError`, discarding the
response: the caller receives 500, not 200, and no temp file
remains. -/
theorem C1_degraded_run_returns_500 :
    (handleRequest envSepFail fileWav (.ok []) "rid" []).2.status = 500 ∧
    (handleRequest envSepFail fileWav (.ok []) "rid" []).1.transInput =
      some (settings.temp_dir ++ "/rid_u0.wav") ∧
    LogRecord.mk .warning "Vocal separation failed, skipping vocal separation step." "rid"
      ∈ (handleRequest envSepFail fileWav (.ok []) "rid" []).1.logs ∧
    (handleRequest envSepFail fileWav (.ok []) "rid" []).1.fs = [] := by
  decide

/-- C2: the claim states the Separator is invoked only when
`enable_separation` is true.  On the code the worker calls
`separate_vocals` unconditionally: every run invokes the Separator,
including a request whose config parses with
`enable_separation = false`. -/
theorem C2_separator_invoked_despite_disabled_flag :
    (∀ env audio_fp cfg rid dur sr fs,
       (routers.transcribe_audio env audio_fp cfg rid dur sr fs).sepInvoked = true) ∧
    TranscriptionConfig.from_dict [("enable_separation", Json.bool false)] =
      .ok ⟨some "en", false, false, "small", 16000⟩ ∧
    (routers.transcribe envSepOk fileWav
        (.ok [("enable_separation", Json.bool false)]) "rid" []).sepInvoked = true :=
  ⟨sepInvoked_always, rfl, by decide⟩

/-- C3: the claim states every temp file of a request is deleted on
every exit path.  On the code, when separation succeeds and
transcription then raises, the worker exits before
`vocals_fp.unlink()`, so the separated-vocals file is still on the
filesystem after the request completes (with status 500). -/
theorem C3_vocals_file_leaks_on_transcription_failure :
    vocalsPath ∈ (handleRequest envTransFail fileWav (.ok []) "rid" []).1.fs ∧
    (handleRequest envTransFail fileWav (.ok []) "rid" []).2.status = 500 := by
  decide

/-- C4: for every validated, decodable request whose transcription
stage raises, the endpoint produces no response and surfaces an
HTTP 500 whose body carries the correlation id, the category
`"processing_failed"`, and the original exception detail. -/
theorem C4_transcription_failure_surfaced_as_500 (env : Env) (file : UploadFile)
    (o : List (String × Json)) (c : TranscriptionConfig) (rid : String) (fs : FS)
    (m ext : String) (dur : ℚ) (sr : Int)
    (hc : TranscriptionConfig.from_dict o = .ok c)
    (hf : validate_file_name_and_ext file = .ok ext)
    (hs : file.content_size ≤ settings.max_file_size_mb * 1024 * 1024)
    (hd : env.decodeResult = .ok (dur, sr))
    (htr : ∀ p, env.transResult p = .error m) :
    (∀ r, (handleRequest env file (.ok o) rid fs).1.result ≠ .ok r) ∧
    (handleRequest env file (.ok o) rid fs).2.status = 500 ∧
    blookup (handleRequest env file (.ok o) rid fs).2.errorBody "request_id" = some rid ∧
    blookup (handleRequest env file (.ok o) rid fs).2.errorBody "error" =
      some "processing_failed" ∧
    blookup (handleRequest env file (.ok o) rid fs).2.errorBody "detail" = some m := by
  have h := transcribe_trans_failure env file o c rid fs m ext dur sr hc hf hs hd htr
  refine ⟨?_, ?_, ?_, ?_, ?_⟩
  · intro r hr
    have hr2 : (routers.transcribe env file (.ok o) rid fs).result = .ok r := hr
    rw [h] at hr2
    exact Except.noConfusion hr2
  all_goals simp only [handleRequest, h, toHttp]
  all_goals rfl

/-- C4 witness: the generic theorem applied to the concrete
transcription-failure request. -/
theorem C4_surfaced_witness :
    (handleRequest envTransFail fileWav (.ok []) "rid" []).2.status = 500 ∧
    blookup (handleRequest envTransFail fileWav (.ok []) "rid" []).2.errorBody
      "request_id" = some "rid" ∧
    blookup (handleRequest envTransFail fileWav (.ok []) "rid" []).2.errorBody
      "error" = some "processing_failed" ∧
    blookup (handleRequest envTransFail fileWav (.ok []) "rid" []).2.errorBody
      "detail" = some "whisper failed" :=
  ⟨(C4_transcription_failure_surfaced_as_500 envTransFail fileWav [] defaultConfig
      "rid" [] "whisper failed" "wav" 5 16000 rfl rfl (by decide) rfl
      (fun _ => rfl)).2.1,
   (C4_transcription_failure_surfaced_as_500 envTransFail fileWav [] defaultConfig
      "rid" [] "whisper failed" "wav" 5 16000 rfl rfl (by decide) rfl
      (fun _ => rfl)).2.2.1,
   (C4_transcription_failure_surfaced_as_500 envTransFail fileWav [] defaultConfig
      "rid" [] "whisper failed" "wav" 5 16000 rfl rfl (by decide) rfl
      (fun _ => rfl)).2.2.2.1,
   (C4_transcription_failure_surfaced_as_500 envTransFail fileWav [] defaultConfig
      "rid" [] "whisper failed" "wav" 5 16000 rfl rfl (by decide) rfl
      (fun _ => rfl)).2.2.2.2⟩

/-- C5: the claim states no temp path is ever shared between two
distinct requests.  On the code the separated-vocals file of every
request is the single fixed path `settings.temp_dir / "vocals.wav"`:
two requests with different request ids and different upload uuids
both hand that same path to the transcription stage. -/
theorem C5_vocals_path_shared_between_requests :
    (routers.transcribe envSepOk fileWav (.ok []) "ridA" []).transInput =
      some vocalsPath ∧
    (routers.transcribe { envSepOk with uuid := "u1" } fileWav (.ok []) "ridB" []).transInput =
      some vocalsPath :=
  ⟨by decide, by decide⟩

/-- C6 counterexample: in a degraded run the response's separation
metadata has no key named `"enabled"` (the code writes `"enables"`),
so the claim as stated fails at this input. -/
theorem C6_no_enabled_key_counterexample :
    ((routers.transcribe_audio envSepFail "TMP/up.wav" defaultConfig "rid" 5 16000
        ["TMP/up.wav"]).result.toOption.map
      (fun r => jlookup r.pipeline.separation "enabled")) = some none := by
  rfl

/-- C6 amended: in every response produced after a separation-stage
failure, the separation sub-object carries the requested
`enable_separation` value under the (misspelled) key `"enables"`,
and no `"enabled"` key exists. -/
theorem C6_enables_key_reflects_config (env : Env) (audio_fp : Path)
    (cfg : TranscriptionConfig) (rid : String) (dur : ℚ) (sr : Int) (fs : FS)
    (e text : String) (segs : List TranscriptionSegment)
    (hsep : env.sepResult = .error e)
    (htr : env.transResult audio_fp = .ok (text, segs))
    (ha : audio_fp ∈ fs) :
    ((routers.transcribe_audio env audio_fp cfg rid dur sr fs).result.toOption.map
       (fun r => jlookup r.pipeline.separation "enables")) =
      some (some (.bool cfg.enable_separation)) ∧
    ((routers.transcribe_audio env audio_fp cfg rid dur sr fs).result.toOption.map
       (fun r => jlookup r.pipeline.separation "enabled")) = some none := by
  simp only [routers.transcribe_audio, TranscriptionService.separate_vocals,
    TranscriptionService.transcribe_audio, hsep, htr, unlink_of_mem _ _ ha]
  exact ⟨rfl, rfl⟩

/-- C6 witness: the amended theorem at a concrete degraded run. -/
theorem C6_enables_witness :
    ((routers.transcribe_audio envSepFail "TMP/up2.wav" defaultConfig "rid" 5 16000
        ["TMP/up2.wav"]).result.toOption.map
      (fun r => jlookup r.pipeline.separation "enables")) =
      some (some (.bool true)) ∧
    ((routers.transcribe_audio envSepFail "TMP/up2.wav" defaultConfig "rid" 5 16000
        ["TMP/up2.wav"]).result.toOption.map
      (fun r => jlookup r.pipeline.separation "enabled")) = some none :=
  C6_enables_key_reflects_config envSepFail "TMP/up2.wav" defaultConfig "rid" 5 16000
    ["TMP/up2.wav"] "demucs failed" "hello world" [⟨0, 5, "hello world"⟩] rfl rfl
    (List.mem_cons_self _ _)

/-- C7 counterexample: the unsupported-extension error response
carries no correlation identifier, so the claim that every error
response includes it fails at this input. -/
theorem C7_validation_error_lacks_request_id :
    (handleRequest envSepOk ⟨some "test.txt", 1000⟩ (.ok []) "rid" []).2.status = 400 ∧
    blookup (handleRequest envSepOk ⟨some "test.txt", 1000⟩ (.ok []) "rid" []).2.errorBody
      "request_id" = none := by
  decide

/-- C7 amended: validation (missing filename, bad extension,
oversized payload), malformed-config and decode error bodies carry
no correlation identifier; only the processing-failure 500 body
does. -/
theorem C7_only_processing_failure_carries_request_id :
    (∀ env cs rid fs,
       blookup (handleRequest env ⟨none, cs⟩ (.ok []) rid fs).2.errorBody
         "request_id" = none) ∧
    (∀ env cs rid fs,
       blookup (handleRequest env ⟨some "audio.txt", cs⟩ (.ok []) rid fs).2.errorBody
         "request_id" = none) ∧
    (∀ env file rid fs e,
       blookup (handleRequest env file (.error e) rid fs).2.errorBody
         "request_id" = none) ∧
    (∀ env cs rid fs, cs > settings.max_file_size_mb * 1024 * 1024 →
       blookup (handleRequest env ⟨some "audio.wav", cs⟩ (.ok []) rid fs).2.errorBody
         "request_id" = none) ∧
    (∀ env cs rid fs e, cs ≤ settings.max_file_size_mb * 1024 * 1024 →
       env.decodeResult = .error e →
       blookup (handleRequest env ⟨some "audio.wav", cs⟩ (.ok []) rid fs).2.errorBody
         "request_id" = none) ∧
    (∀ env file o c rid fs m ext dur sr,
       TranscriptionConfig.from_dict o = .ok c →
       validate_file_name_and_ext file = .ok ext →
       file.content_size ≤ settings.max_file_size_mb * 1024 * 1024 →
       env.decodeResult = .ok (dur, sr) →
       (∀ p, env.transResult p = .error m) →
       blookup (handleRequest env file (.ok o) rid fs).2.errorBody
         "request_id" = some rid) := by
  refine ⟨fun env cs rid fs => rfl, fun env cs rid fs => rfl,
    fun env file rid fs e => rfl, ?_, ?_, ?_⟩
  · intro env cs rid fs hcs
    have hvs : validate_file_size cs = .error (.httpException 413
        [("error", "file_too_large"), ("detail", "File size exceeds limit")]) := by
      unfold validate_file_size
      rw [if_pos hcs]
    have hf : validate_file_name_and_ext ⟨some "audio.wav", cs⟩ = .ok "wav" := rfl
    simp only [handleRequest, routers.transcribe, hf, hvs, toHttp]
    rfl
  · intro env cs rid fs e hcs hd
    have hvs : validate_file_size cs = .ok cs := by
      unfold validate_file_size
      rw [if_neg (by omega)]
    have hf : validate_file_name_and_ext ⟨some "audio.wav", cs⟩ = .ok "wav" := rfl
    simp only [handleRequest, routers.transcribe, hf, hvs,
      get_audio_duration_and_sample_rate, hd, toHttp]
    rfl
  · intro env file o c rid fs m ext dur sr hc hf hs hd htr
    have h := transcribe_trans_failure env file o c rid fs m ext dur sr hc hf hs hd htr
    simp only [handleRequest, h, toHttp]
    rfl

/-- C7 witness: the amended theorem's conditional parts at concrete
inputs — an oversized upload (no correlation id) and a
transcription failure (correlation id present). -/
theorem C7_carries_witness :
    blookup (handleRequest envSepOk ⟨some "audio.wav", 200 * 1024 * 1024⟩ (.ok [])
        "rid" []).2.errorBody "request_id" = none ∧
    blookup (handleRequest envTransFail fileWav (.ok []) "rid" []).2.errorBody
      "request_id" = some "rid" :=
  ⟨C7_only_processing_failure_carries_request_id.2.2.2.1 envSepOk
      (200 * 1024 * 1024) "rid" [] (by decide),
   C7_only_processing_failure_carries_request_id.2.2.2.2.2 envTransFail fileWav []
      defaultConfig "rid" [] "whisper failed" "wav" 5 16000 rfl rfl (by decide)
      rfl (fun _ => rfl)⟩

/-- C8 counterexample: releasing a path deletes the file, but a
second release of the same path raises `FileNotFoundError` — the
release operation is not idempotent, refuting the claim at this
input. -/
theorem C8_second_release_fails_counterexample :
    unlink (FS.write [] "TMP/out.wav") "TMP/out.wav" = .ok [] ∧
    unlink ([] : FS) "TMP/out.wav" = .error (.fileNotFound "TMP/out.wav") :=
  ⟨rfl, rfl⟩

/-- C8 amended: `Path.unlink()` (the release operation the service
uses) deletes the file when present but raises `FileNotFoundError`
when the file is absent, so a repeated release of the same path
fails rather than being a no-op. -/
theorem C8_release_not_idempotent (fs : FS) (p : Path) :
    (p ∈ fs → unlink fs p = .ok (fs.removePath p)) ∧
    (p ∉ fs → unlink fs p = .error (.fileNotFound p)) ∧
    (p ∈ fs → unlink (fs.removePath p) p = .error (.fileNotFound p)) :=
  ⟨unlink_of_mem fs p, unlink_of_not_mem fs p,
   fun _ => unlink_of_not_mem _ p (not_mem_removePath fs p)⟩

/-- C8 witness: the amended theorem at a one-file filesystem. -/
theorem C8_release_witness :
    unlink ["TMP/a.wav"] "TMP/a.wav" = .ok (FS.removePath ["TMP/a.wav"] "TMP/a.wav") ∧
    unlink (FS.removePath ["TMP/a.wav"] "TMP/a.wav") "TMP/a.wav" =
      .error (.fileNotFound "TMP/a.wav") :=
  ⟨(C8_release_not_idempotent ["TMP/a.wav"] "TMP/a.wav").1 (by decide),
   (C8_release_not_idempotent ["TMP/a.wav"] "TMP/a.wav").2.2 (by decide)⟩

/-- C9: parsing a config and re-serializing preserves all five
fields exactly (round-trip); an empty input object yields the
documented defaults; and any unknown input key is ignored. -/
theorem C9_config_roundtrip :
    (∀ c : TranscriptionConfig,
       TranscriptionConfig.from_dict c.model_dump = .ok c) ∧
    TranscriptionConfig.from_dict [] = .ok defaultConfig ∧
    (∀ pre post (k : String) (v : Json), k ∉ configFieldNames →
       TranscriptionConfig.from_dict (pre ++ (k, v) :: post) =
         TranscriptionConfig.from_dict (pre ++ post)) := by
  refine ⟨?_, rfl, ?_⟩
  · intro c
    obtain ⟨lh, es, dz, ms, sr⟩ := c
    cases lh <;> rfl
  · intro pre post k v hk
    simp only [configFieldNames, List.mem_cons, List.not_mem_nil, or_false,
      not_or] at hk
    obtain ⟨h1, h2, h3, h4, h5⟩ := hk
    unfold TranscriptionConfig.from_dict
    rw [jlookup_skip _ _ _ _ _ h1, jlookup_skip _ _ _ _ _ h2,
        jlookup_skip _ _ _ _ _ h3, jlookup_skip _ _ _ _ _ h4,
        jlookup_skip _ _ _ _ _ h5]

/-- C9 witness: an unknown key `"junk"` is ignored. -/
theorem C9_roundtrip_witness :
    "junk" ∉ configFieldNames ∧
    TranscriptionConfig.from_dict
        ([("model_size", Json.str "large")] ++ ("junk", Json.int 3) :: []) =
      TranscriptionConfig.from_dict ([("model_size", Json.str "large")] ++ []) :=
  ⟨by decide, C9_config_roundtrip.2.2 [("model_size", Json.str "large")] []
    "junk" (Json.int 3) (by decide)⟩

/-- C10: the response's total timing is the elapsed seconds
truncated to an integer before scaling to milliseconds, hence a
non-negative multiple of 1000; and on a sub-second run it is 0,
strictly below the sum of the load, separation and transcription
sub-timings. -/
theorem C10_total_truncated_to_whole_seconds :
    (∀ load_time sep_time transcription_time total_elapsed : ℚ,
       0 ≤ total_elapsed →
       (1000 : Int) ∣
         (workerTiming load_time sep_time transcription_time total_elapsed).total ∧
       0 ≤ (workerTiming load_time sep_time transcription_time total_elapsed).total) ∧
    (∃ load_time sep_time transcription_time total_elapsed : ℚ,
       0 ≤ sep_time ∧ 0 ≤ load_time ∧ load_time ≤ transcription_time ∧
       sep_time + transcription_time ≤ total_elapsed ∧ total_elapsed < 1 ∧
       (workerTiming load_time sep_time transcription_time total_elapsed).total = 0 ∧
       (workerTiming load_time sep_time transcription_time total_elapsed).total <
         (workerTiming load_time sep_time transcription_time total_elapsed).load +
         ((workerTiming load_time sep_time transcription_time total_elapsed).separation +
          (workerTiming load_time sep_time transcription_time total_elapsed).transcription)) := by
  constructor
  · intro l s t tot htot
    have h : (workerTiming l s t tot).total = pyInt tot * 1000 := by
      unfold workerTiming
      exact pyInt_int_mul (pyInt tot)
    rw [h]
    refine ⟨dvd_mul_left 1000 (pyInt tot), ?_⟩
    have hge : 0 ≤ pyInt tot := by
      unfold pyInt
      rw [if_pos htot]
      exact Int.floor_nonneg.mpr htot
    positivity
  · refine ⟨9/20, 2/5, 1/2, 9/10, by norm_num, by norm_num, by norm_num, by norm_num,
      by norm_num, ?_, ?_⟩
    · norm_num [workerTiming, pyInt]
    · norm_num [workerTiming, pyInt]

/-- C10 witness: the universal part at a concrete two-second run. -/
theorem C10_total_witness :
    (1000 : Int) ∣ (workerTiming 1 0 1 2).total ∧
    0 ≤ (workerTiming 1 0 1 2).total :=
  C10_total_truncated_to_whole_seconds.1 1 0 1 2 (by norm_num)

end TranscriptionSvc
